import Mathlib

/-!
Verification development for the Angular neural-style-transfer client
(`my-project/src/app`).  Each definition is a shallow embedding of a
function of the TypeScript source, named after it; theorems settle the
frozen claims about the specification.
-/

namespace StyleTransferClient

/-- Job status reported by `GET /transfer/{id}` and stored in
`StyleTransferJob.status` (`style-transfer.model.ts`). -/
inductive Status where
  | pending
  | processing
  | completed
  | failed
deriving DecidableEq, Repr

/-- The predicate of the `takeWhile` stage of `pollJobStatus`
(`style-transfer.service.ts:73`):
`job.status === 'pending' || job.status === 'processing'`. -/
def isPolling (s : Status) : Bool :=
  s == Status.pending || s == Status.processing

/-- Untimed model of `pollJobStatus` (`style-transfer.service.ts:70-75`),
`interval(pollInterval).pipe(switchMap(() => this.getJobStatus(jobId)),
takeWhile(isPolling, true))`, in the regime where every status response
arrives before the next tick.  The input list is the sequence of
responses the remote service would return to successive status requests.
The result is the pair of (values emitted to the subscriber, number of
status requests actually issued).  Each tick issues one request; a
response satisfying the `takeWhile` predicate is emitted and the loop
continues; the first response failing it (`completed`/`failed`) is still
emitted — the second argument `true` of `takeWhile` makes the last
observation inclusive — and then the whole pipeline is unsubscribed, so
the interval stops and no further request is issued. -/
def pollRun : List Status → List Status × Nat
  | [] => ([], 0)
  | s :: rest =>
    if isPolling s then
      let r := pollRun rest
      (s :: r.1, r.2 + 1)
    else ([s], 1)

/-- State of the timed model of `pollJobStatus`, advanced one interval
tick at a time.  `issued` counts status requests issued so far,
`emitted` the values delivered to the subscriber, `cancelledReqs` the
indices of requests that `switchMap` unsubscribed (aborting the HTTP
request) because the next interval tick fired while they were still in
flight, and `live` whether the pipeline is still subscribed. -/
structure TimedPollState where
  emitted : List Status
  issued : Nat
  cancelledReqs : List Nat
  live : Bool
deriving DecidableEq, Repr

/-- Timed model of `pollJobStatus` (`style-transfer.service.ts:70-75`)
with per-request response latencies.  `interval(p)` ticks at wall-clock
times `p, 2p, 3p, ...` independently of any response; the request
issued at tick `k` (index `k`) responds after `lat k` time units with
status `resp k` unless it is cancelled first.  `switchMap` keeps at
most one inner subscription: when a tick fires while the previous
request is still unresolved (`lat k > p`), that request is unsubscribed
— the HTTP request is aborted and its response dropped — and the new
request replaces it.  A response arriving within the interval
(`lat k ≤ p`; a response arriving exactly at the tick is processed
first) is emitted; by `takeWhile(isPolling, true)` a terminal response
is emitted and then the pipeline unsubscribes, so no further tick
fires.  `pollTimed p lat resp n` is the state after the first `n` tick
opportunities. -/
def pollTimedStep (p : Nat) (lat : Nat → Nat) (resp : Nat → Status)
    (st : TimedPollState) : TimedPollState :=
  if st.live then
    if st.issued = 0 then
      { st with issued := 1 }
    else
      let k := st.issued - 1
      if lat k ≤ p then
        let s := resp k
        if isPolling s then
          { st with emitted := st.emitted ++ [s], issued := st.issued + 1 }
        else
          { st with emitted := st.emitted ++ [s], live := false }
      else
        { st with cancelledReqs := st.cancelledReqs ++ [k], issued := st.issued + 1 }
  else st

/-- Iterate `pollTimedStep` from the freshly subscribed pipeline: the
state after the first `n` tick opportunities. -/
def pollTimed (p : Nat) (lat : Nat → Nat) (resp : Nat → Status) : Nat → TimedPollState
  | 0 => ⟨[], 0, [], true⟩
  | n + 1 => pollTimedStep p lat resp (pollTimed p lat resp n)

/-- C1: the polling loop re-emits every non-terminal status, emits the
first `completed`/`failed` status to the caller, then terminates and
issues no further status requests: for a response sequence consisting of
non-terminal statuses `pre`, a first terminal status `t` and any later
remote states `rest`, the loop emits exactly `pre ++ [t]` and issues
exactly `pre.length + 1` status requests, none for `rest`. -/
theorem pollJobStatus_inclusive_terminal (pre : List Status) (t : Status) (rest : List Status)
    (hpre : ∀ s ∈ pre, s = Status.pending ∨ s = Status.processing)
    (ht : t = Status.completed ∨ t = Status.failed) :
    pollRun (pre ++ t :: rest) = (pre ++ [t], pre.length + 1) := by
  induction pre with
  | nil =>
    have hterm : isPolling t = false := by
      rcases ht with h | h <;> simp [h, isPolling]
    simp [pollRun, hterm]
  | cons s pre ih =>
    have hs : isPolling s = true := by
      rcases hpre s (List.mem_cons_self s pre) with h | h <;> simp [h, isPolling]
    have hrec := ih (fun x hx => hpre x (List.mem_cons_of_mem s hx))
    simp [pollRun, hs, hrec]

/-- Witness for C1: for the response sequence
`[pending, processing, completed]` the loop emits exactly those three
values in order and issues exactly three requests; a sequence ending in
`failed` behaves identically. -/
theorem pollJobStatus_inclusive_terminal_witness :
    pollRun [Status.pending, Status.processing, Status.completed]
      = ([Status.pending, Status.processing, Status.completed], 3) ∧
    pollRun [Status.pending, Status.processing, Status.failed]
      = ([Status.pending, Status.processing, Status.failed], 3) :=
  ⟨pollJobStatus_inclusive_terminal [Status.pending, Status.processing] Status.completed []
      (by decide) (Or.inl rfl),
   pollJobStatus_inclusive_terminal [Status.pending, Status.processing] Status.failed []
      (by decide) (Or.inr rfl)⟩

/-- A tick step on an unsubscribed pipeline does nothing. -/
theorem pollTimedStep_of_dead (p : Nat) (lat : Nat → Nat) (resp : Nat → Status)
    (st : TimedPollState) (h : st.live = false) :
    pollTimedStep p lat resp st = st := by
  simp [pollTimedStep, h]

/-- If the pipeline is live after a tick step, it was live before. -/
theorem pollTimedStep_live_of (p : Nat) (lat : Nat → Nat) (resp : Nat → Status)
    (st : TimedPollState) (h : (pollTimedStep p lat resp st).live = true) :
    st.live = true := by
  by_contra hn
  simp only [Bool.not_eq_true] at hn
  rw [pollTimedStep_of_dead p lat resp st hn] at h
  rw [h] at hn
  exact Bool.noConfusion hn

/-- A live tick step on a live pipeline issues exactly one more status
request, whatever the pending request's latency is. -/
theorem pollTimedStep_issued (p : Nat) (lat : Nat → Nat) (resp : Nat → Status)
    (st : TimedPollState) (hst : st.live = true)
    (h : (pollTimedStep p lat resp st).live = true) :
    (pollTimedStep p lat resp st).issued = st.issued + 1 := by
  by_cases h0 : st.issued = 0
  · simp [pollTimedStep, hst, h0]
  · by_cases hlat : lat (st.issued - 1) ≤ p
    · by_cases hpoll : isPolling (resp (st.issued - 1)) = true
      · simp [pollTimedStep, hst, h0, hlat, hpoll]
      · exfalso
        simp only [Bool.not_eq_true] at hpoll
        simp [pollTimedStep, hst, h0, hlat, hpoll] at h
    · simp [pollTimedStep, hst, h0, hlat]

/-- A tick step can only add the index of the currently pending request,
and only when its latency exceeds the interval. -/
theorem pollTimedStep_cancelled_sub (p : Nat) (lat : Nat → Nat) (resp : Nat → Status)
    (st : TimedPollState) (k : Nat)
    (hk : k ∈ (pollTimedStep p lat resp st).cancelledReqs) :
    k ∈ st.cancelledReqs ∨ p < lat k := by
  by_cases hst : st.live = true
  · by_cases h0 : st.issued = 0
    · left
      simpa [pollTimedStep, hst, h0] using hk
    · by_cases hlat : lat (st.issued - 1) ≤ p
      · by_cases hpoll : isPolling (resp (st.issued - 1)) = true
        · left
          simpa [pollTimedStep, hst, h0, hlat, hpoll] using hk
        · left
          simp only [Bool.not_eq_true] at hpoll
          simpa [pollTimedStep, hst, h0, hlat, hpoll] using hk
      · simp [pollTimedStep, hst, h0, hlat] at hk
        rcases hk with hk | hk
        · exact Or.inl hk
        · right
          subst hk
          omega
  · left
    simp only [Bool.not_eq_true] at hst
    simpa [pollTimedStep_of_dead p lat resp st hst] using hk

/-- A live tick step on a pipeline whose pending request is slower than
the interval unsubscribes (cancels) that request. -/
theorem pollTimedStep_cancels (p : Nat) (lat : Nat → Nat) (resp : Nat → Status)
    (st : TimedPollState) (hst : st.live = true) (h0 : st.issued ≠ 0)
    (hlat : p < lat (st.issued - 1)) :
    (pollTimedStep p lat resp st).cancelledReqs = st.cancelledReqs ++ [st.issued - 1] := by
  have hn : ¬ lat (st.issued - 1) ≤ p := by omega
  simp [pollTimedStep, hst, h0, hn]

/-- While the timed polling pipeline is live, exactly one status request
has been issued per elapsed interval tick, whatever the response
latencies are. -/
theorem pollTimed_issued_of_live (p : Nat) (lat : Nat → Nat) (resp : Nat → Status) :
    ∀ n, (pollTimed p lat resp n).live = true → (pollTimed p lat resp n).issued = n := by
  intro n
  induction n with
  | zero => intro _; rfl
  | succ n ih =>
    intro hlive
    have hl : (pollTimed p lat resp n).live = true :=
      pollTimedStep_live_of p lat resp _ hlive
    have := pollTimedStep_issued p lat resp (pollTimed p lat resp n) hl hlive
    have hiss := ih hl
    calc (pollTimed p lat resp (n + 1)).issued
        = (pollTimed p lat resp n).issued + 1 := this
      _ = n + 1 := by rw [hiss]

/-- Every request the timed polling pipeline cancels was slower than the
polling interval. -/
theorem pollTimed_cancelled_slow (p : Nat) (lat : Nat → Nat) (resp : Nat → Status) :
    ∀ n k, k ∈ (pollTimed p lat resp n).cancelledReqs → lat k > p := by
  intro n
  induction n with
  | zero => intro k hk; simp [pollTimed] at hk
  | succ n ih =>
    intro k hk
    rcases pollTimedStep_cancelled_sub p lat resp (pollTimed p lat resp n) k hk with h | h
    · exact ih k h
    · exact h

/-- C2 counterexample: with a 5-unit interval and a first status request
that takes 7 units to answer (slower than the interval), after the
second tick the first request has been cancelled (`switchMap`
unsubscribed it when the next tick fired) and its response was never
emitted — contradicting the claim that a slow previous request is not
cancelled or replaced and that two checks may be in flight together. -/
theorem pollJobStatus_slow_request_is_cancelled :
    (pollTimed 5 (fun k => if k = 0 then 7 else 1) (fun _ => Status.pending) 2).cancelledReqs
        = [0] ∧
    (pollTimed 5 (fun k => if k = 0 then 7 else 1) (fun _ => Status.pending) 2).emitted = [] ∧
    (if (0 : Nat) = 0 then (7 : Nat) else 1) > 5 := by
  decide

/-- C2 amended: the interval fires a status request at every fixed
wall-clock tick regardless of whether the previous response has arrived
(while live, the number of issued requests equals the number of ticks,
for every latency assignment), but `switchMap` keeps at most one check
in flight: every cancelled request was slower than the interval, and a
request slower than the interval is cancelled — unsubscribed and
replaced, its response dropped — exactly when the next tick fires. -/
theorem pollJobStatus_switchMap_amended (p : Nat) (lat : Nat → Nat) (resp : Nat → Status) :
    (∀ n, (pollTimed p lat resp n).live = true → (pollTimed p lat resp n).issued = n) ∧
    (∀ n k, k ∈ (pollTimed p lat resp n).cancelledReqs → lat k > p) ∧
    (∀ k, (pollTimed p lat resp (k + 1)).live = true → lat k > p →
      k ∈ (pollTimed p lat resp (k + 2)).cancelledReqs) := by
  refine ⟨pollTimed_issued_of_live p lat resp, pollTimed_cancelled_slow p lat resp, ?_⟩
  intro k hlive hlat
  have hiss : (pollTimed p lat resp (k + 1)).issued = k + 1 :=
    pollTimed_issued_of_live p lat resp (k + 1) hlive
  have h0 : (pollTimed p lat resp (k + 1)).issued ≠ 0 := by omega
  have hk : (pollTimed p lat resp (k + 1)).issued - 1 = k := by omega
  have hcanc := pollTimedStep_cancels p lat resp (pollTimed p lat resp (k + 1)) hlive h0
    (by rw [hk]; omega)
  show k ∈ (pollTimedStep p lat resp (pollTimed p lat resp (k + 1))).cancelledReqs
  rw [hcanc, hk]
  exact List.mem_append_right _ (List.mem_singleton_self k)

/-- Witness for C2 amended: with interval 5 and a first request of
latency 7, the pipeline is live after the first tick, and the first
request is indeed cancelled when the second tick fires. -/
theorem pollJobStatus_switchMap_amended_witness :
    0 ∈ (pollTimed 5 (fun k => if k = 0 then 7 else 1) (fun _ => Status.pending) 2).cancelledReqs :=
  (pollJobStatus_switchMap_amended 5 (fun k => if k = 0 then 7 else 1)
      (fun _ => Status.pending)).2.2 0 (by decide) (by decide)

/-- JS truthiness of an optional string: `undefined` and `''` are falsy,
every other string truthy. -/
def truthyStr : Option String → Bool
  | none => false
  | some s => s ≠ ""

/-- `LoginCredentials` (`auth.service.ts:7-11`): `email?: string`,
`password: string`, `masterPassword?: string`. -/
structure LoginCredentials where
  email : Option String
  password : String
  masterPassword : Option String
deriving DecidableEq, Repr

/-- The request body built by `AuthService.login`
(`auth.service.ts:41-49`): always `password`, plus `master_password`
when `credentials.masterPassword` is truthy, else `email` when
`credentials.email` is truthy. -/
structure LoginBody where
  password : String
  master_password : Option String
  email : Option String
deriving DecidableEq, Repr

/-- What a login entry point does: fail locally with the component's
error message (no network traffic), or issue the `POST /auth/login`
request with the given body. -/
inductive LoginAction where
  | localValidationError (msg : String)
  | networkLogin (body : LoginBody)
deriving DecidableEq, Repr

/-- Body construction of `AuthService.login` (`auth.service.ts:41-49`). -/
def loginBody (c : LoginCredentials) : LoginBody :=
  if truthyStr c.masterPassword then
    { password := c.password, master_password := c.masterPassword, email := none }
  else if truthyStr c.email then
    { password := c.password, master_password := none, email := c.email }
  else
    { password := c.password, master_password := none, email := none }

/-- `AuthService.login` (`auth.service.ts:40-69`): performs no local
validation; it always issues the network request with `loginBody`. -/
def authServiceLogin (c : LoginCredentials) : LoginAction :=
  LoginAction.networkLogin (loginBody c)

/-- The login form state of `AuthModalComponent`
(`auth-modal.component.ts:137-141`): all three fields are plain strings
initialised to `''`. -/
structure LoginForm where
  email : String
  password : String
  masterPassword : String
deriving DecidableEq, Repr

/-- `AuthModalComponent.onLogin` (`auth-modal.component.ts:166-195`):
if `masterPassword` is truthy it is forwarded (the email field is
dropped); else if `email` is truthy it is forwarded; else the component
sets a local error message and returns without calling the service. -/
def onLogin (f : LoginForm) : LoginAction :=
  if f.masterPassword ≠ "" then
    authServiceLogin { password := f.password, masterPassword := some f.masterPassword,
                       email := none }
  else if f.email ≠ "" then
    authServiceLogin { password := f.password, masterPassword := none, email := some f.email }
  else
    LoginAction.localValidationError "Please provide either email/password or master password"

/-- C3 counterexample: with both `email` and `masterPassword` supplied,
`onLogin` does not fail locally — it issues the network login request
(master password taking precedence, email dropped), refuting the claim
that supplying both fails with a ValidationError before any network
call. -/
theorem login_both_supplied_issues_network :
    onLogin { email := "user@example.com", password := "pw", masterPassword := "mp" }
      = LoginAction.networkLogin { password := "pw", master_password := some "mp",
                                   email := none } := by
  rfl

/-- C3 amended: only when neither `masterPassword` nor `email` is
supplied does the login flow fail locally, with the auth modal's error
message and no network call; when `masterPassword` is supplied (even
together with `email`) the request is issued with `master_password`
only, and when only `email` is supplied the request is issued with
`email`; `AuthService.login` itself never validates — called directly
it always issues the request. -/
theorem login_validation_amended (f : LoginForm) :
    (f.masterPassword = "" → f.email = "" →
      onLogin f = LoginAction.localValidationError
        "Please provide either email/password or master password") ∧
    (f.masterPassword ≠ "" →
      onLogin f = LoginAction.networkLogin
        { password := f.password, master_password := some f.masterPassword, email := none }) ∧
    (f.masterPassword = "" → f.email ≠ "" →
      onLogin f = LoginAction.networkLogin
        { password := f.password, master_password := none, email := some f.email }) ∧
    (∀ c : LoginCredentials, authServiceLogin c = LoginAction.networkLogin (loginBody c)) := by
  refine ⟨?_, ?_, ?_, fun _ => rfl⟩
  · intro hm he
    simp [onLogin, hm, he]
  · intro hm
    simp [onLogin, hm, authServiceLogin, loginBody, truthyStr]
  · intro hm he
    simp [onLogin, hm, he, authServiceLogin, loginBody, truthyStr]

/-- Witness for C3 amended: the empty form fails locally, and a
master-password-only form issues the network request. -/
theorem login_validation_amended_witness :
    onLogin { email := "", password := "pw", masterPassword := "" }
        = LoginAction.localValidationError
            "Please provide either email/password or master password" ∧
    onLogin { email := "", password := "pw", masterPassword := "mp" }
        = LoginAction.networkLogin
            { password := "pw", master_password := some "mp", email := none } :=
  ⟨(login_validation_amended { email := "", password := "pw", masterPassword := "" }).1
      rfl rfl,
   (login_validation_amended { email := "", password := "pw", masterPassword := "mp" }).2.1
      (by decide)⟩

/-- A transport error as observed by the Angular error callbacks:
`status` is the HTTP status code, `message` the `HttpErrorResponse`
message, `detail` the server body's `detail` field when present, and
`errorEvent` the client-side `ErrorEvent` message when the failure
happened before reaching the server. -/
structure HttpError where
  status : Nat
  message : String
  detail : Option String
  errorEvent : Option String
deriving DecidableEq, Repr

/-- What an error handler surfaces to its caller: the uniform
authentication-required condition (`new Error('Authentication
required. Please sign in.')`), some other error message, or nothing at
all (the error is only written to the console). -/
inductive SurfacedError where
  | authRequired
  | message (msg : String)
  | loggedOnly
deriving DecidableEq, Repr

/-- JS `a || b` on an optional string against a fallback. -/
def jsOrElse (a : Option String) (b : String) : String :=
  match a with
  | some s => if s ≠ "" then s else b
  | none => b

/-- `catchError` of `transferStyle` (`style-transfer.service.ts:57-63`):
status 401 becomes the uniform auth-required error, anything else a
composed failure message. -/
def transferStyleCatch (e : HttpError) : SurfacedError :=
  if e.status == 401 then SurfacedError.authRequired
  else SurfacedError.message ("Failed to start style transfer: " ++ jsOrElse e.detail e.message)

/-- `GalleryService.handleError` (`gallery.service.ts:92-103`):
client-side `ErrorEvent`s and server-side errors are rendered into a
readable message; no status-specific branching. -/
def handleError (e : HttpError) : SurfacedError :=
  match e.errorEvent with
  | some m => SurfacedError.message ("Error: " ++ m)
  | none =>
      SurfacedError.message
        ("Error Code: " ++ toString e.status ++ "\nMessage: " ++ e.message)

/-- `catchError` of `deleteGalleryItem` (`gallery.service.ts:37-46`):
status 401 becomes the uniform auth-required error, anything else goes
through `handleError`. -/
def deleteGalleryItemCatch (e : HttpError) : SurfacedError :=
  if e.status == 401 then SurfacedError.authRequired
  else handleError e

/-- Error callback of `AdminPageComponent.loadRequests`
(`admin-page.component.ts:226-229`): the error — whatever its status —
is logged to the console and the loading flag cleared; nothing is
surfaced to the user and no auth-required condition is raised. -/
def loadRequestsCatch (_e : HttpError) : SurfacedError :=
  SurfacedError.loggedOnly

/-- C4 counterexample: a 401 response to the admin page's authenticated
`loadRequests` call is not translated into the AuthRequired condition —
it is logged and dropped — refuting the claim that every outbound
authenticated call translates 401 uniformly to AuthRequired. -/
theorem unauthorized_not_uniform_on_admin_page :
    loadRequestsCatch { status := 401, message := "Unauthorized", detail := none,
                        errorEvent := none } = SurfacedError.loggedOnly ∧
    SurfacedError.loggedOnly ≠ SurfacedError.authRequired := by
  exact ⟨rfl, by decide⟩

/-- C4 amended: the style-transfer submission and gallery-deletion
services translate any 401 response uniformly into the single
AuthRequired condition, whatever the endpoint payload, but the admin
page's authenticated calls (`loadRequests` among them) perform no such
translation — every error there, 401 included, is logged and not
surfaced. -/
theorem unauthorized_translation_amended (e : HttpError) :
    (e.status = 401 →
      transferStyleCatch e = SurfacedError.authRequired ∧
      deleteGalleryItemCatch e = SurfacedError.authRequired) ∧
    loadRequestsCatch e = SurfacedError.loggedOnly := by
  refine ⟨fun h => ⟨?_, ?_⟩, rfl⟩
  · simp [transferStyleCatch, h]
  · simp [deleteGalleryItemCatch, h]

/-- Witness for C4 amended: a concrete 401 error is mapped to
AuthRequired by both services and merely logged by the admin page. -/
theorem unauthorized_translation_amended_witness :
    transferStyleCatch { status := 401, message := "Unauthorized", detail := none,
                         errorEvent := none } = SurfacedError.authRequired ∧
    deleteGalleryItemCatch { status := 401, message := "Unauthorized", detail := none,
                             errorEvent := none } = SurfacedError.authRequired ∧
    loadRequestsCatch { status := 401, message := "Unauthorized", detail := none,
                        errorEvent := none } = SurfacedError.loggedOnly := by
  refine ⟨?_, ?_, ?_⟩
  · exact ((unauthorized_translation_amended
      { status := 401, message := "Unauthorized", detail := none, errorEvent := none }).1
        rfl).1
  · exact ((unauthorized_translation_amended
      { status := 401, message := "Unauthorized", detail := none, errorEvent := none }).1
        rfl).2
  · exact (unauthorized_translation_amended
      { status := 401, message := "Unauthorized", detail := none, errorEvent := none }).2

/-- A gallery item as held by `GalleryPageComponent` after ingestion
(`gallery.model.ts` / `mapGalleryItem`): the fields the page's
filtering, sorting and deletion actually read.  `timestamp` is the
`Date.getTime()` millisecond value; numeric fields are rationals. -/
structure GalleryItem where
  id : String
  timestamp : Int
  styleLoss : Rat
  contentLoss : Rat
  processingTime : Rat
  styleWeight : Rat
  contentWeight : Rat
  numSteps : Rat
deriving DecidableEq, Repr

/-- The numeric comparator the `switch (this.sortOption)` of
`applySortingAndFilters` (`gallery-page.component.ts:279-316`) passes to
`Array.prototype.sort`; an unrecognized key falls back to the `newest`
comparator (the `default` branch). -/
def comparatorFor (sortOption : String) : GalleryItem → GalleryItem → Rat :=
  if sortOption = "newest" then fun a b => (b.timestamp : Rat) - (a.timestamp : Rat)
  else if sortOption = "oldest" then fun a b => (a.timestamp : Rat) - (b.timestamp : Rat)
  else if sortOption = "lossAsc" then
    fun a b => (a.styleLoss + a.contentLoss) - (b.styleLoss + b.contentLoss)
  else if sortOption = "lossDesc" then
    fun a b => (b.styleLoss + b.contentLoss) - (a.styleLoss + a.contentLoss)
  else if sortOption = "processingTime" then fun a b => b.processingTime - a.processingTime
  else if sortOption = "steps" then fun a b => b.numSteps - a.numSteps
  else fun a b => (b.timestamp : Rat) - (a.timestamp : Rat)

/-- `Array.prototype.sort` with a numeric comparator: a stable sort
placing `a` before `b` when the comparator is non-positive. -/
def jsSort (cmp : GalleryItem → GalleryItem → Rat) (l : List GalleryItem) : List GalleryItem :=
  l.mergeSort (fun a b => decide (cmp a b ≤ 0))

/-- The state of `GalleryPageComponent`
(`gallery-page.component.ts:148-154`) that filtering, sorting and
deletion touch. -/
structure GalleryPageState where
  allGalleryItems : List GalleryItem
  filteredItems : List GalleryItem
  sortOption : String
  activePresetFilter : String
  showAuthModal : Bool
deriving Repr

/-- `applySortingAndFilters` (`gallery-page.component.ts:264-317`),
parameterised by the external classifier
`WeightPresetService.getPresetLabel` (`getBalanceLabel` at line 213):
`'all'` copies the whole base collection, any other filter key keeps the
items whose classifier label equals it; the result is then sorted per
`sortOption`. -/
def applySortingAndFilters (classify : Rat → Rat → String)
    (st : GalleryPageState) : GalleryPageState :=
  let filtered :=
    if st.activePresetFilter = "all" then st.allGalleryItems
    else st.allGalleryItems.filter
      (fun it => classify it.styleWeight it.contentWeight == st.activePresetFilter)
  { st with filteredItems := jsSort (comparatorFor st.sortOption) filtered }

/-- `GalleryPageComponent.deleteItem` (`gallery-page.component.ts:184-207`),
parameterised by the session state (`AuthService.isAuthenticated`), the
`confirm(...)` dialog answer and the outcome of the remote
`deleteGalleryItem` call (`none` = success, `some e` = the error
surfaced by `deleteGalleryItemCatch`).  Unauthenticated: the auth modal
is shown and nothing else happens.  On success the item is filtered out
of the base collection (`item.id !== id`) and the view recomputed; on an
auth-required error the modal is shown (the page matches the
`'Authentication required'` message); other errors only alert. -/
def deleteItem (classify : Rat → Rat → String) (isAuth : Bool) (confirmed : Bool)
    (outcome : Option SurfacedError) (id : String) (st : GalleryPageState) : GalleryPageState :=
  if !isAuth then { st with showAuthModal := true }
  else if confirmed then
    match outcome with
    | none =>
        applySortingAndFilters classify
          { st with allGalleryItems := st.allGalleryItems.filter (fun it => it.id != id) }
    | some SurfacedError.authRequired => { st with showAuthModal := true }
    | some _ => st
  else st

/-- Removing the unique item carrying `id` shortens the list by exactly
one. -/
theorem length_filter_ne_of_unique (l : List GalleryItem) (id : String)
    (h : l.countP (fun it => it.id == id) = 1) :
    (l.filter (fun it => it.id != id)).length + 1 = l.length := by
  induction l with
  | nil => simp [List.countP_nil] at h
  | cons x xs ih =>
    by_cases hx : x.id = id
    · rw [List.countP_cons] at h
      simp [hx] at h
      have hnone : xs.filter (fun it => it.id != id) = xs := by
        rw [List.filter_eq_self]
        intro a ha
        simpa using h a ha
      simp [List.filter_cons, hx, hnone]
    · have h' : xs.countP (fun it => it.id == id) = 1 := by
        rw [List.countP_cons] at h
        simpa [hx] using h
      have := ih h'
      simp [List.filter_cons, hx]
      omega

/-- C5: a delete attempted while unauthenticated leaves the base
collection (and the view) untouched and surfaces AuthRequired by
opening the auth modal; an authenticated, confirmed delete whose remote
call succeeds removes from the base collection exactly the items
carrying the targeted id — one item when the id is unique — and
recomputes the view from the new base collection. -/
theorem gallery_delete_claim (classify : Rat → Rat → String) (st : GalleryPageState)
    (id : String) (confirmed : Bool) (outcome : Option SurfacedError) :
    ((deleteItem classify false confirmed outcome id st).allGalleryItems
        = st.allGalleryItems ∧
     (deleteItem classify false confirmed outcome id st).filteredItems = st.filteredItems ∧
     (deleteItem classify false confirmed outcome id st).showAuthModal = true) ∧
    ((deleteItem classify true true none id st).allGalleryItems
        = st.allGalleryItems.filter (fun it => it.id != id) ∧
     (∀ x, x ∈ (deleteItem classify true true none id st).allGalleryItems ↔
        x ∈ st.allGalleryItems ∧ x.id ≠ id) ∧
     (st.allGalleryItems.countP (fun it => it.id == id) = 1 →
        (deleteItem classify true true none id st).allGalleryItems.length + 1
          = st.allGalleryItems.length) ∧
     deleteItem classify true true none id st
        = applySortingAndFilters classify
            { st with allGalleryItems := st.allGalleryItems.filter (fun it => it.id != id) }) := by
  refine ⟨⟨rfl, rfl, rfl⟩, ?_, ?_, ?_, rfl⟩
  · show (applySortingAndFilters classify
        { st with allGalleryItems := st.allGalleryItems.filter (fun it => it.id != id) }).allGalleryItems
      = st.allGalleryItems.filter (fun it => it.id != id)
    rfl
  · intro x
    show x ∈ (applySortingAndFilters classify
        { st with allGalleryItems := st.allGalleryItems.filter (fun it => it.id != id) }).allGalleryItems
      ↔ _
    simp [applySortingAndFilters, List.mem_filter]
  · intro h
    show (applySortingAndFilters classify
        { st with allGalleryItems := st.allGalleryItems.filter (fun it => it.id != id) }).allGalleryItems.length + 1
      = st.allGalleryItems.length
    exact length_filter_ne_of_unique st.allGalleryItems id h

/-- Witness for C5: on a concrete two-item gallery, the unauthenticated
attempt changes nothing and shows the modal, and the authenticated
successful delete of `"a"` leaves exactly the other item, the count
dropping by one. -/
theorem gallery_delete_claim_witness :
    (deleteItem (fun _ _ => "Balanced") false true none "a"
        { allGalleryItems := [], filteredItems := [], sortOption := "newest",
          activePresetFilter := "all", showAuthModal := false }).showAuthModal = true ∧
    (deleteItem (fun _ _ => "Balanced") true true none "a"
        { allGalleryItems := [⟨"a", 0, 0, 0, 0, 0, 0, 0⟩, ⟨"b", 1, 0, 0, 0, 0, 0, 0⟩],
          filteredItems := [], sortOption := "newest",
          activePresetFilter := "all", showAuthModal := false }).allGalleryItems.length + 1 = 2 :=
  ⟨(gallery_delete_claim (fun _ _ => "Balanced")
      { allGalleryItems := [], filteredItems := [], sortOption := "newest",
        activePresetFilter := "all", showAuthModal := false } "a" true none).1.2.2,
   (gallery_delete_claim (fun _ _ => "Balanced")
      { allGalleryItems := [⟨"a", 0, 0, 0, 0, 0, 0, 0⟩, ⟨"b", 1, 0, 0, 0, 0, 0, 0⟩],
        filteredItems := [], sortOption := "newest",
        activePresetFilter := "all", showAuthModal := false } "a" true none).2.2.2.1
      (by decide)⟩

/-- The sorting stage of the view is a permutation: it reorders but
never adds or drops items. -/
theorem jsSort_perm (cmp : GalleryItem → GalleryItem → Rat) (l : List GalleryItem) :
    (jsSort cmp l).Perm l :=
  List.mergeSort_perm l _

/-- C6: filtering by `'all'` yields a view with exactly the items of the
base collection (hence the same ids and count); filtering by any other
key `L` yields exactly the items whose classifier label is `L`; and —
provided the classifier never returns the reserved key `'all'` — the
label views cover the base collection with no omission and contain only
items of their own label, so the distinct labels present partition it
with no overlap. -/
theorem gallery_filter_claim (classify : Rat → Rat → String) (st : GalleryPageState) :
    ((applySortingAndFilters classify
        { st with activePresetFilter := "all" }).filteredItems).Perm st.allGalleryItems ∧
    (∀ L, L ≠ "all" →
      ((applySortingAndFilters classify
          { st with activePresetFilter := L }).filteredItems).Perm
        (st.allGalleryItems.filter
          (fun it => classify it.styleWeight it.contentWeight == L))) ∧
    ((∀ it ∈ st.allGalleryItems, classify it.styleWeight it.contentWeight ≠ "all") →
      (∀ it ∈ st.allGalleryItems,
        it ∈ (applySortingAndFilters classify
          { st with activePresetFilter :=
              classify it.styleWeight it.contentWeight }).filteredItems) ∧
      (∀ L, L ≠ "all" → ∀ x,
        x ∈ (applySortingAndFilters classify
          { st with activePresetFilter := L }).filteredItems →
        classify x.styleWeight x.contentWeight = L)) := by
  have hview : ∀ L, L ≠ "all" →
      ((applySortingAndFilters classify
          { st with activePresetFilter := L }).filteredItems).Perm
        (st.allGalleryItems.filter
          (fun it => classify it.styleWeight it.contentWeight == L)) := by
    intro L hL
    show (jsSort (comparatorFor st.sortOption)
        (if L = "all" then st.allGalleryItems else _)).Perm _
    rw [if_neg hL]
    exact jsSort_perm _ _
  refine ⟨?_, hview, ?_⟩
  · show (jsSort (comparatorFor st.sortOption)
        (if "all" = "all" then st.allGalleryItems else _)).Perm st.allGalleryItems
    rw [if_pos rfl]
    exact jsSort_perm _ _
  · intro hall
    constructor
    · intro it hit
      have hL := hall it hit
      have hmem : it ∈ st.allGalleryItems.filter
          (fun x => classify x.styleWeight x.contentWeight
            == classify it.styleWeight it.contentWeight) := by
        rw [List.mem_filter]
        exact ⟨hit, by simp⟩
      exact ((hview _ hL).mem_iff).mpr hmem
    · intro L hL x hx
      have hmem := ((hview L hL).mem_iff).mp hx
      rw [List.mem_filter] at hmem
      simpa using hmem.2

/-- Witness for C6: with a two-label classifier on a concrete two-item
collection, each item appears in the view of its own label and the
`"Style Heavy"` view contains only style-heavy items. -/
theorem gallery_filter_claim_witness :
    (⟨"a", 0, 0, 0, 0, 10, 1, 0⟩ : GalleryItem) ∈
      (applySortingAndFilters (fun sw _ => if sw ≥ 10 then "Style Heavy" else "Balanced")
        { allGalleryItems := [⟨"a", 0, 0, 0, 0, 10, 1, 0⟩, ⟨"b", 1, 0, 0, 0, 0, 1, 0⟩],
          filteredItems := [], sortOption := "newest",
          activePresetFilter := "Style Heavy", showAuthModal := false }).filteredItems :=
  ((gallery_filter_claim (fun sw _ => if sw ≥ 10 then "Style Heavy" else "Balanced")
      { allGalleryItems := [⟨"a", 0, 0, 0, 0, 10, 1, 0⟩, ⟨"b", 1, 0, 0, 0, 0, 1, 0⟩],
        filteredItems := [], sortOption := "newest",
        activePresetFilter := "Style Heavy", showAuthModal := false }).2.2
    (by decide)).1 ⟨"a", 0, 0, 0, 0, 10, 1, 0⟩ (by decide)

/-- The state of `StyleTransferPageComponent`
(`style-transfer-page.component.ts:69-73`) as far as submission is
concerned: whether each image slot holds a file
(`!!this.contentImage?.file`, `!!this.styleImage?.file`) and whether a
submitted job is still running (`isProcessing` is set on submission and
cleared when a `completed`/`failed` update or an error arrives). -/
structure StyleTransferPageState where
  hasContentFile : Bool
  hasStyleFile : Bool
  isProcessing : Bool
deriving DecidableEq, Repr

/-- What a submission attempt does: rejected locally before any network
traffic (the spec's ValidationError), blocked for authentication (the
auth modal opens, no submission), or the `POST /transfer` request is
issued. -/
inductive SubmitAction where
  | blockedLocally
  | authRequired
  | networkSubmit
deriving DecidableEq, Repr

/-- `get canApplyStyle` (`style-transfer-page.component.ts:90-92`):
both assets present and no job currently processing. -/
def canApplyStyle (st : StyleTransferPageState) : Bool :=
  st.hasContentFile && st.hasStyleFile && !st.isProcessing

/-- `onApplyStyle` (`style-transfer-page.component.ts:102-120`): returns
silently when an asset is missing, opens the auth modal when the
session is unauthenticated, otherwise issues the transfer request.  It
does not itself re-check `isProcessing`. -/
def onApplyStyle (isAuth : Bool) (st : StyleTransferPageState) : SubmitAction :=
  if !(st.hasContentFile && st.hasStyleFile) then SubmitAction.blockedLocally
  else if !isAuth then SubmitAction.authRequired
  else SubmitAction.networkSubmit

/-- Modelled from the spec: `StyleControlsComponent`, the owner of the
Apply button, is not part of the analysed sources; the page binds
`[canApply]="canApplyStyle"` and `(apply)="onApplyStyle($event)"`
(template lines 47-51), and per the spec's submission preconditions the
`apply` event cannot fire while `canApply` is false — a violated
precondition fails locally with no network call.  A submission attempt
is therefore the guard followed by `onApplyStyle`. -/
def attemptApplyStyle (isAuth : Bool) (st : StyleTransferPageState) : SubmitAction :=
  if !(canApplyStyle st) then SubmitAction.blockedLocally
  else onApplyStyle isAuth st

/-- C7: a submission attempted with either asset missing, or while a
job is still `pending`/`processing` for this page instance
(`isProcessing`), is rejected locally and no network call is made. -/
theorem submit_preconditions_claim (isAuth : Bool) (st : StyleTransferPageState) :
    (st.hasContentFile = false ∨ st.hasStyleFile = false →
      attemptApplyStyle isAuth st = SubmitAction.blockedLocally) ∧
    (st.isProcessing = true →
      attemptApplyStyle isAuth st = SubmitAction.blockedLocally) := by
  constructor
  · intro h
    rcases h with h | h <;> simp [attemptApplyStyle, canApplyStyle, h]
  · intro h
    simp [attemptApplyStyle, canApplyStyle, h]

/-- Witness for C7: a concrete attempt with the style asset missing and
a concrete attempt while a job is processing are both rejected
locally. -/
theorem submit_preconditions_claim_witness :
    attemptApplyStyle true ⟨true, false, false⟩ = SubmitAction.blockedLocally ∧
    attemptApplyStyle true ⟨true, true, true⟩ = SubmitAction.blockedLocally :=
  ⟨(submit_preconditions_claim true ⟨true, false, false⟩).1 (Or.inr rfl),
   (submit_preconditions_claim true ⟨true, true, true⟩).2 rfl⟩

/-- A JavaScript number: `NaN`, the two infinities, or a finite value
(modelled as a rational). -/
inductive NumVal where
  | nan
  | posInf
  | negInf
  | finite (q : Rat)
deriving DecidableEq, Repr

/-- A raw JSON-ish field value as `mapGalleryItem` may receive it from
the remote gallery payload: missing (`undefined`), `null`, a boolean, a
number, a string, or some other object (which coerces to `NaN` under
`Number(...)` and is truthy).  Exotic numeric string forms (exponent,
hex, `Infinity`) are not modelled; the gallery payload's scalar fields
do not use them. -/
inductive RawVal where
  | undef
  | null
  | boolean (b : Bool)
  | num (v : NumVal)
  | str (s : String)
  | obj
deriving DecidableEq, Repr

/-- Strip leading and trailing whitespace, as JS `Number(...)` does
before parsing. -/
def jsTrim (s : String) : String :=
  String.mk (((s.toList.dropWhile Char.isWhitespace).reverse.dropWhile
    Char.isWhitespace).reverse)

/-- JS `Number(string)` on a plain decimal literal: trimmed, an empty
string is `0`, an optional sign followed by digits and an optional
fractional part parses, anything else is `NaN`. -/
def strToNum (s : String) : NumVal :=
  let t := jsTrim s
  if t = "" then NumVal.finite 0
  else
    let cs := t.toList
    let signed : Rat × List Char :=
      match cs with
      | '-' :: rest => (-1, rest)
      | '+' :: rest => (1, rest)
      | _ => (1, cs)
    let ip := signed.2.takeWhile Char.isDigit
    let rest := signed.2.dropWhile Char.isDigit
    let natVal : List Char → Nat :=
      fun ds => ds.foldl (fun n c => 10 * n + (c.toNat - 48)) 0
    match rest with
    | [] =>
        if ip ≠ [] then NumVal.finite (signed.1 * (natVal ip : Rat))
        else NumVal.nan
    | '.' :: frac =>
        if frac.all Char.isDigit ∧ (ip ≠ [] ∨ frac ≠ []) then
          NumVal.finite (signed.1 *
            ((natVal ip : Rat) + (natVal frac : Rat) / ((10 : Rat) ^ frac.length)))
        else NumVal.nan
    | _ => NumVal.nan

/-- JS `Number(value)` coercion over the modelled raw values. -/
def toNumber : RawVal → NumVal
  | RawVal.undef => NumVal.nan
  | RawVal.null => NumVal.finite 0
  | RawVal.boolean b => NumVal.finite (if b then 1 else 0)
  | RawVal.num v => v
  | RawVal.str s => strToNum s
  | RawVal.obj => NumVal.nan

/-- JS truthiness of the modelled raw values. -/
def rawTruthy : RawVal → Bool
  | RawVal.undef => false
  | RawVal.null => false
  | RawVal.boolean b => b
  | RawVal.num NumVal.nan => false
  | RawVal.num (NumVal.finite q) => q ≠ 0
  | RawVal.num _ => true
  | RawVal.str s => s ≠ ""
  | RawVal.obj => true

/-- `GalleryService.ensureNumber` (`gallery.service.ts:85-90`):
`null`, `undefined` and values whose `Number(...)` coercion is `NaN`
become `0`; every other value becomes its coercion (which the gallery
payload only ever makes finite, though an infinite number would pass
through). -/
def ensureNumber (value : RawVal) : NumVal :=
  if value = RawVal.null ∨ value = RawVal.undef then NumVal.finite 0
  else
    match toNumber value with
    | NumVal.nan => NumVal.finite 0
    | v => v

/-- The raw `parameters` sub-object of an incoming gallery item. -/
structure RawParameters where
  styleWeight : RawVal
  contentWeight : RawVal
  numSteps : RawVal
  layerWeights : RawVal
deriving DecidableEq, Repr

/-- An incoming gallery item, restricted to the fields the numeric
ingestion of `mapGalleryItem` reads; `parameters` may be absent
(`item.parameters?.` optional chaining). -/
structure RawGalleryItem where
  bestLoss : RawVal
  styleLoss : RawVal
  contentLoss : RawVal
  processingTime : RawVal
  parameters : Option RawParameters
deriving DecidableEq, Repr

/-- The raw `numSteps` value `item.parameters?.numSteps` (an absent
`parameters` object yields `undefined`). -/
def rawNumSteps (item : RawGalleryItem) : RawVal :=
  match item.parameters with
  | some ps => ps.numSteps
  | none => RawVal.undef

/-- The numeric fields of a mapped `GalleryItem` as `mapGalleryItem`
produces them.  `numSteps` keeps the raw JS value: the source computes
`item.parameters?.numSteps || 300`, which passes a truthy raw value
through unchanged — without numeric coercion — and falls back to the
number `300` otherwise. -/
structure MappedNumerics where
  bestLoss : NumVal
  styleLoss : NumVal
  contentLoss : NumVal
  processingTime : NumVal
  styleWeight : NumVal
  contentWeight : NumVal
  numSteps : RawVal
deriving DecidableEq, Repr

/-- The numeric part of `GalleryService.mapGalleryItem`
(`gallery.service.ts:62-83`). -/
def mapGalleryItem (item : RawGalleryItem) : MappedNumerics :=
  let pSW := match item.parameters with
    | some ps => ps.styleWeight
    | none => RawVal.undef
  let pCW := match item.parameters with
    | some ps => ps.contentWeight
    | none => RawVal.undef
  { bestLoss := ensureNumber item.bestLoss
    styleLoss := ensureNumber item.styleLoss
    contentLoss := ensureNumber item.contentLoss
    processingTime := ensureNumber item.processingTime
    styleWeight := ensureNumber pSW
    contentWeight := ensureNumber pCW
    numSteps :=
      if rawTruthy (rawNumSteps item) then rawNumSteps item
      else RawVal.num (NumVal.finite 300) }

/-- C8 counterexample: ingesting an item whose fields are all missing
coerces `styleLoss`, `contentLoss`, `processingTime`, `styleWeight` and
`contentWeight` to `0`, but `parameters.numSteps` becomes `300`, not
`0` — refuting the claim that every listed numeric field is coerced to
`0` when missing. -/
theorem numSteps_not_coerced_to_zero :
    (mapGalleryItem ⟨RawVal.undef, RawVal.undef, RawVal.undef, RawVal.undef, none⟩).styleLoss
        = NumVal.finite 0 ∧
    (mapGalleryItem ⟨RawVal.undef, RawVal.undef, RawVal.undef, RawVal.undef, none⟩).numSteps
        = RawVal.num (NumVal.finite 300) ∧
    RawVal.num (NumVal.finite 300) ≠ RawVal.num (NumVal.finite 0) := by
  refine ⟨rfl, rfl, by decide⟩

/-- C8 amended: at ingestion the fields `styleLoss`, `contentLoss`,
`processingTime`, `parameters.styleWeight` and `parameters.contentWeight`
go through `ensureNumber`, which yields `0` exactly when the incoming
value is `null`, `undefined` or coerces to `NaN` and the numeric
coercion otherwise; `parameters.numSteps` instead defaults to `300`
when the incoming value is falsy (missing included) and is passed
through unchanged — with no numeric coercion at all — when truthy. -/
theorem ingestion_coercion_amended (item : RawGalleryItem) :
    ((mapGalleryItem item).styleLoss = ensureNumber item.styleLoss ∧
     (mapGalleryItem item).contentLoss = ensureNumber item.contentLoss ∧
     (mapGalleryItem item).processingTime = ensureNumber item.processingTime) ∧
    (∀ v : RawVal, v = RawVal.null ∨ v = RawVal.undef ∨ toNumber v = NumVal.nan →
      ensureNumber v = NumVal.finite 0) ∧
    (∀ v : RawVal, v ≠ RawVal.null → v ≠ RawVal.undef → toNumber v ≠ NumVal.nan →
      ensureNumber v = toNumber v) ∧
    (rawTruthy (rawNumSteps item) = true →
      (mapGalleryItem item).numSteps = rawNumSteps item) ∧
    (rawTruthy (rawNumSteps item) = false →
      (mapGalleryItem item).numSteps = RawVal.num (NumVal.finite 300)) := by
  refine ⟨⟨rfl, rfl, rfl⟩, ?_, ?_, ?_, ?_⟩
  · intro v hv
    rcases hv with h | h | h
    · simp [ensureNumber, h]
    · simp [ensureNumber, h]
    · by_cases hn : v = RawVal.null ∨ v = RawVal.undef
      · simp [ensureNumber, hn]
      · simp [ensureNumber, hn, h]
  · intro v h1 h2 h3
    have hn : ¬ (v = RawVal.null ∨ v = RawVal.undef) := by
      intro h
      rcases h with h | h
      · exact h1 h
      · exact h2 h
    unfold ensureNumber
    rw [if_neg hn]
    cases hv : toNumber v with
    | nan => exact absurd hv h3
    | posInf => rfl
    | negInf => rfl
    | finite q => rfl
  · intro h
    simp [mapGalleryItem, h]
  · intro h
    simp [mapGalleryItem, h]

/-- Witness for C8 amended: a non-numeric string is coerced to `0` by
`ensureNumber`, while a truthy non-numeric `numSteps` string passes
through ingestion unchanged. -/
theorem ingestion_coercion_amended_witness :
    ensureNumber (RawVal.str "abc") = NumVal.finite 0 ∧
    (mapGalleryItem ⟨RawVal.undef, RawVal.undef, RawVal.undef, RawVal.undef,
        some ⟨RawVal.undef, RawVal.undef, RawVal.str "abc", RawVal.undef⟩⟩).numSteps
      = RawVal.str "abc" :=
  ⟨(ingestion_coercion_amended
      ⟨RawVal.undef, RawVal.undef, RawVal.undef, RawVal.undef, none⟩).2.1
      (RawVal.str "abc") (Or.inr (Or.inr (by decide))),
   (ingestion_coercion_amended
      ⟨RawVal.undef, RawVal.undef, RawVal.undef, RawVal.undef,
        some ⟨RawVal.undef, RawVal.undef, RawVal.str "abc", RawVal.undef⟩⟩).2.2.2.1
      (by decide)⟩

/-- JS `Number.prototype.toFixed`: fixed-point rendering with the given
number of fraction digits, rounding to nearest with ties away from
zero. -/
def toFixed (q : Rat) (digits : Nat) : String :=
  let neg := q < 0
  let a : Rat := if q < 0 then -q else q
  let pow : Nat := 10 ^ digits
  let scaled : Rat := a * (pow : Rat)
  let m : Nat := (scaled + 1 / 2).floor.toNat
  let ip := m / pow
  let fp := m % pow
  let fpStr := toString fp
  let pad := String.mk (List.replicate (digits - fpStr.length) '0')
  (if neg then "-" else "") ++ toString ip ++
    (if digits = 0 then "" else "." ++ pad ++ fpStr)

/-- The argument type of `GalleryPageComponent.formatValue`
(`gallery-page.component.ts:227`): `number | null | undefined`. -/
inductive FormatArg where
  | null
  | undef
  | num (v : NumVal)
deriving DecidableEq, Repr

/-- `GalleryPageComponent.formatValue`
(`gallery-page.component.ts:227-247`): `null`/`undefined` render as
`"--"`, `NaN` as `"N/A"`, the infinities as `"∞"`/`"-∞"`, values from a
million as millions with one decimal and an `M` suffix, values from a
thousand likewise with `K`, and everything else with two decimals. -/
def formatValue : FormatArg → String
  | FormatArg.null => "--"
  | FormatArg.undef => "--"
  | FormatArg.num NumVal.nan => "N/A"
  | FormatArg.num NumVal.posInf => "∞"
  | FormatArg.num NumVal.negInf => "-∞"
  | FormatArg.num (NumVal.finite q) =>
    if q ≥ 1000000 then toFixed (q / 1000000) 1 ++ "M"
    else if q ≥ 1000 then toFixed (q / 1000) 1 ++ "K"
    else toFixed q 2

/-- Evaluation rule for `toFixed` on a non-negative value whose scaled
rounding is the natural number `m`. -/
theorem toFixed_eval (q : Rat) (digits m : Nat)
    (hq : ¬ q < 0)
    (hm : (q * ((10 ^ digits : Nat) : Rat) + 1 / 2).floor = (m : Int)) :
    toFixed q digits =
      toString (m / 10 ^ digits) ++
        (if digits = 0 then ""
         else "." ++ String.mk (List.replicate
             (digits - (toString (m % 10 ^ digits)).length) '0')
           ++ toString (m % 10 ^ digits)) := by
  simp only [toFixed, if_neg hq, hm, Int.toNat_natCast, String.append_assoc]
  rfl

/-- C9: the six documented example values of `formatValue`. -/
theorem formatValue_examples :
    formatValue (FormatArg.num (NumVal.finite 1500000)) = "1.5M" ∧
    formatValue (FormatArg.num (NumVal.finite 2500)) = "2.5K" ∧
    formatValue (FormatArg.num (NumVal.finite (1 / 2))) = "0.50" ∧
    formatValue FormatArg.undef = "--" ∧
    formatValue (FormatArg.num NumVal.nan) = "N/A" ∧
    formatValue (FormatArg.num NumVal.posInf) = "∞" := by
  refine ⟨?_, ?_, ?_, rfl, rfl, rfl⟩
  · have h1 : toFixed ((1500000 : Rat) / 1000000) 1 = "1.5" := by
      rw [toFixed_eval ((1500000 : Rat) / 1000000) 1 15 (by norm_num)
        (by rw [Rat.floor_def']; norm_num)]
      rfl
    simp only [formatValue]
    rw [if_pos (by norm_num), h1]
    rfl
  · have h1 : toFixed ((2500 : Rat) / 1000) 1 = "2.5" := by
      rw [toFixed_eval ((2500 : Rat) / 1000) 1 25 (by norm_num)
        (by rw [Rat.floor_def']; norm_num)]
      rfl
    simp only [formatValue]
    rw [if_neg (by norm_num), if_pos (by norm_num), h1]
    rfl
  · have h1 : toFixed ((1 : Rat) / 2) 2 = "0.50" := by
      rw [toFixed_eval ((1 : Rat) / 2) 2 50 (by norm_num)
        (by rw [Rat.floor_def']; norm_num)]
      rfl
    simp only [formatValue]
    rw [if_neg (by norm_num), if_neg (by norm_num), h1]

/-- The persisted identity record (`User`, `auth.service.ts:19-22`):
`email: string | null`, `isMaster: boolean`. -/
structure StoredUser where
  email : Option String
  isMaster : Bool
deriving DecidableEq, Repr

/-- `AuthService.getStoredUser` (`auth.service.ts:119-129`),
parameterised by the platform's `JSON.parse` composed with the `User`
cast — `parse` returns `Except.error` exactly when `JSON.parse` would
throw on a non-JSON record.  The `try/catch` converts that exception
into `null`; an absent record is also `null`.  Every path returns a
value: no exception escapes. -/
def getStoredUser (parse : String → Except String StoredUser)
    (stored : Option String) : Option StoredUser :=
  match stored with
  | some userStr =>
    match parse userStr with
    | Except.ok u => some u
    | Except.error _ => none
  | none => none

/-- `AuthService.isAdmin` (`auth.service.ts:90-93`):
`user?.isMaster || false` over the stored record. -/
def isAdmin (parse : String → Except String StoredUser)
    (stored : Option String) : Bool :=
  match getStoredUser parse stored with
  | some u => u.isMaster
  | none => false

/-- C10: when the persisted user record is present but is not valid
JSON (the parse throws), `getStoredUser` returns `null` instead of
propagating the exception, and `isAdmin()` consequently returns
`false`; both operations are total on such corrupt input. -/
theorem corrupt_stored_user_claim (parse : String → Except String StoredUser)
    (stored : Option String) (s e : String)
    (hs : stored = some s) (he : parse s = Except.error e) :
    getStoredUser parse stored = none ∧ isAdmin parse stored = false := by
  subst hs
  refine ⟨?_, ?_⟩
  · simp [getStoredUser, he]
  · simp [isAdmin, getStoredUser, he]

/-- Witness for C10: a concrete corrupt record with a parser that
throws on it yields `null` and a non-admin classification. -/
theorem corrupt_stored_user_claim_witness :
    getStoredUser (fun _ => Except.error "SyntaxError: Unexpected token")
        (some "not valid json") = none ∧
    isAdmin (fun _ => Except.error "SyntaxError: Unexpected token")
        (some "not valid json") = false :=
  corrupt_stored_user_claim (fun _ => Except.error "SyntaxError: Unexpected token")
    (some "not valid json") "not valid json" "SyntaxError: Unexpected token" rfl rfl

end StyleTransferClient
